import Mathlib

/-!
Verification development for the ShadowPay HTTP 434 Axum middleware
(examples/axum-http-434-middleware.rs).

The middleware gates protected paths behind a proof-of-payment credential
carried in six request headers, enforces single use of each nullifier via a
shared replay set, and maps every validation outcome to a fixed error body.
The definitions below are a shallow embedding of that source file: header
values are raw byte lists (as stored by the http crate HeaderMap), strings are
Lean strings, the replay set is an explicit list threaded through each call,
and the async middleware is a pure function from (path, headers, state) to
(response, state).
-/

namespace ShadowPay

/-- Raw HTTP header value: an arbitrary byte sequence, as stored by the http
crate HeaderMap for one header name. -/
structure HeaderValue where
  bytes : List Nat
deriving DecidableEq

/-- Byte predicate used by HeaderValue::to_str in the http crate: a byte is
kept when it is visible ASCII (32 to 126) or horizontal tab (9). -/
def isVisibleAsciiByte (b : Nat) : Bool :=
  decide ((32 ≤ b ∧ b < 127) ∨ b = 9)

/-- Model of HeaderValue::to_str().ok(): yields the string whose characters are
exactly the bytes of the value when every byte is visible ASCII or tab, and
none otherwise. -/
def headerValueToStr (v : HeaderValue) : Option String :=
  if v.bytes.all isVisibleAsciiByte then some ⟨v.bytes.map Char.ofNat⟩ else none

/-- Model of headers.get(name).and_then(to_str().ok()).unwrap_or(""): the
decoded value of an optional header, defaulting to the empty string. -/
def getHeaderStr (o : Option HeaderValue) : String :=
  (o.bind headerValueToStr).getD ""

/-- The ShadowPay-relevant projection of a request header map: the six header
names the middleware ever reads. A field is none when the key is absent. -/
structure Headers where
  proofH : Option HeaderValue
  nullifierH : Option HeaderValue
  merkleRootH : Option HeaderValue
  invoiceIdH : Option HeaderValue
  escrowAccountH : Option HeaderValue
  schemeH : Option HeaderValue
deriving DecidableEq

/-- Value of X-ShadowPay-Proof as read by verify_shadowpay. -/
def proofStr (h : Headers) : String := getHeaderStr h.proofH

/-- Value of X-ShadowPay-Nullifier as read by verify_shadowpay. -/
def nullifierStr (h : Headers) : String := getHeaderStr h.nullifierH

/-- Value of X-ShadowPay-Merkle-Root as read by verify_shadowpay. -/
def merkleRootStr (h : Headers) : String := getHeaderStr h.merkleRootH

/-- Value of X-ShadowPay-Invoice-Id as read by verify_shadowpay. -/
def invoiceIdStr (h : Headers) : String := getHeaderStr h.invoiceIdH

/-- Value of X-ShadowPay-Escrow-Account: the source keeps this one optional
(get(..).and_then(to_str().ok()) with no unwrap_or). -/
def escrowAccountStr (h : Headers) : Option String :=
  h.escrowAccountH.bind headerValueToStr

/-- Unicode White_Space property on a character, backing str::trim. -/
def rustIsWhitespace (c : Char) : Bool :=
  decide ((9 ≤ c.toNat ∧ c.toNat ≤ 13) ∨ c.toNat = 32 ∨ c.toNat = 0x85 ∨
    c.toNat = 0xA0 ∨ c.toNat = 0x1680 ∨ (0x2000 ≤ c.toNat ∧ c.toNat ≤ 0x200A) ∨
    c.toNat = 0x2028 ∨ c.toNat = 0x2029 ∨ c.toNat = 0x202F ∨ c.toNat = 0x205F ∨
    c.toNat = 0x3000)

/-- Model of str::trim: remove leading and trailing whitespace characters. -/
def rustTrim (s : String) : String :=
  ⟨((s.data.dropWhile rustIsWhitespace).reverse.dropWhile rustIsWhitespace).reverse⟩

/-- Model of str::is_empty. -/
def rustIsEmpty (s : String) : Bool := s.data.isEmpty

/-- Number of bytes of the UTF-8 encoding of one character (char::len_utf8). -/
def charUtf8Len (c : Char) : Nat :=
  if c.toNat ≤ 0x7F then 1 else if c.toNat ≤ 0x7FF then 2
  else if c.toNat ≤ 0xFFFF then 3 else 4

/-- Model of str::len: the byte length of the UTF-8 encoding. -/
def rustStrLen (s : String) : Nat := (s.data.map charUtf8Len).sum

/-- Model of char::is_ascii_hexdigit: 0-9, a-f or A-F by code point. -/
def rustIsAsciiHexdigit (c : Char) : Bool :=
  decide ((48 ≤ c.toNat ∧ c.toNat ≤ 57) ∨ (97 ≤ c.toNat ∧ c.toNat ≤ 102) ∨
    (65 ≤ c.toNat ∧ c.toNat ≤ 70))

/-- Value of a standard base64 alphabet character, none outside the alphabet.
Modelled from the base64 crate standard alphabet A-Z, a-z, 0-9, plus, slash. -/
def base64CharVal (c : Char) : Option Nat :=
  if 65 ≤ c.toNat ∧ c.toNat ≤ 90 then some (c.toNat - 65)
  else if 97 ≤ c.toNat ∧ c.toNat ≤ 122 then some (c.toNat - 71)
  else if 48 ≤ c.toNat ∧ c.toNat ≤ 57 then some (c.toNat + 4)
  else if c.toNat = 43 then some 62
  else if c.toNat = 47 then some 63
  else none

/-- Membership in the standard base64 alphabet. -/
def isBase64Char (c : Char) : Bool := (base64CharVal c).isSome

/-- Zero trailing-bits requirement on the last symbol of a base64 body whose
length is not a multiple of four. -/
def base64LastSymbolOk (body : List Char) : Bool :=
  match body.length % 4, body.getLast? with
  | 2, some c => ((base64CharVal c).getD 0) % 16 == 0
  | 3, some c => ((base64CharVal c).getD 0) % 4 == 0
  | _, _ => true

/-- Syntactic validity of a base64 string. Modelled from base64::decode with
the standard configuration: at most two trailing padding characters which, when
present, complete a four-character block; every other character in the
alphabet; body length not congruent to 1 mod 4; zero trailing bits in the last
symbol of a partial block. -/
def base64DecodeOk (s : String) : Bool :=
  let cs := s.data
  let pads := (cs.reverse.takeWhile (fun c => c == '=')).length
  let body := cs.take (cs.length - pads)
  decide (pads ≤ 2) && body.all isBase64Char && body.length % 4 != 1 &&
    (pads == 0 || cs.length % 4 == 0) && base64LastSymbolOk body

/-- Translation of looks_like_base64: trim, reject the empty string, then ask
the base64 decoder. -/
def looks_like_base64 (s : String) : Bool :=
  let clean := rustTrim s
  if rustIsEmpty clean then false else base64DecodeOk clean

/-- Translation of looks_like_hex32: the trimmed string has byte length 64 and
every character is an ASCII hex digit. -/
def looks_like_hex32 (s : String) : Bool :=
  let clean := rustTrim s
  rustStrLen clean == 64 && clean.data.all rustIsAsciiHexdigit

/-- Translation of has_shadowpay_headers: all four mandatory keys present. -/
def has_shadowpay_headers (h : Headers) : Bool :=
  h.proofH.isSome && h.nullifierH.isSome && h.merkleRootH.isSome &&
    h.invoiceIdH.isSome

/-- Translation of the VerifyError enum. -/
inductive VerifyError where
  | missingHeaders
  | invalidProof (msg : String)
  | doubleSpend (msg : String)
  | escrowLocked
  | preconditionMissing (msg : String)
deriving DecidableEq

/-- Outcome of verify_shadowpay, mirroring Result with unit payload. -/
inductive VerifyResult where
  | ok
  | err (e : VerifyError)
deriving DecidableEq

/-- The shared replay state: the set of already used nullifiers, modelled as a
list (the source HashSet only ever answers contains and insert). -/
abbrev ReplaySet := List String

/-- Translation of ShadowPayState::default(): the replay set at process start. -/
def initialReplaySet : ReplaySet := []

/-- Translation of the escrow test: if let Some(acc) on the optional escrow
account, locked exactly when it equals the demo sentinel. -/
def escrowLockedCheck : Option String → Bool
  | some acc => acc == "LOCKED_ESCROW_FOR_DEMO"
  | none => false

/-- Translation of verify_shadowpay: the structural checks in source order,
then the replay check and insert on the shared nullifier set. The updated set
is returned as the second component. -/
def verify_shadowpay (h : Headers) (state : ReplaySet) :
    VerifyResult × ReplaySet :=
  if rustIsEmpty (proofStr h) || rustIsEmpty (nullifierStr h) ||
      rustIsEmpty (merkleRootStr h) || rustIsEmpty (invoiceIdStr h) then
    (.err .missingHeaders, state)
  else if invoiceIdStr h != "inv_demo_1" then
    (.err (.preconditionMissing "Unknown or inactive invoice id"), state)
  else if !looks_like_base64 (proofStr h) then
    (.err (.invalidProof "Proof is not valid base64"), state)
  else if !looks_like_hex32 (merkleRootStr h) then
    (.err (.invalidProof "Merkle root must be 32 byte hex"), state)
  else if rustStrLen (nullifierStr h) < 16 then
    (.err (.invalidProof "Nullifier looks too short"), state)
  else if escrowLockedCheck (escrowAccountStr h) then
    (.err .escrowLocked, state)
  else if state.contains (nullifierStr h) then
    (.err (.doubleSpend "Nullifier already used"), state)
  else
    (.ok, nullifierStr h :: state)

/-- Observable outcome of one middleware call: the request is forwarded to the
inner service, or rejected with the serialized error body fields. -/
inductive ShadowResponse where
  | forwarded
  | rejected (status : Nat) (title : String) (detail : String)
deriving DecidableEq

/-- Translation of the protected-path test path.starts_with, via character
prefix (equivalent to the byte prefix test of str::starts_with). -/
def is_protected (path : String) : Bool :=
  "/v1/protected".data.isPrefixOf path.data

/-- Translation of ShadowPayMiddleware::call on one request: unprotected paths
pass through untouched; protected paths without the four mandatory keys get
the bare 434; otherwise the verifier runs and its outcome is mapped to the
fixed error table. The replay set after the call is the second component. -/
def shadowpay_call (path : String) (h : Headers) (state : ReplaySet) :
    ShadowResponse × ReplaySet :=
  if !is_protected path then (.forwarded, state)
  else if !has_shadowpay_headers h then
    (.rejected 434 "Private Payment Proof Required"
      "ShadowPay proof headers are required on this endpoint.", state)
  else
    match verify_shadowpay h state with
    | (.ok, s2) => (.forwarded, s2)
    | (.err .missingHeaders, s2) =>
        (.rejected 434 "Private Payment Proof Required"
          "ShadowPay proof headers are incomplete.", s2)
    | (.err (.invalidProof msg), s2) =>
        (.rejected 422 "Invalid ShadowPay Proof" msg, s2)
    | (.err (.doubleSpend msg), s2) =>
        (.rejected 409 "ShadowPay Nullifier Conflict" msg, s2)
    | (.err .escrowLocked, s2) =>
        (.rejected 423 "ShadowPay Escrow Locked"
          "Escrow account is locked for this demo.", s2)
    | (.err (.preconditionMissing msg), s2) =>
        (.rejected 428 "ShadowPay Precondition Required" msg, s2)

/-- Sequential processing of a list of requests, threading the replay set. -/
def runAll (reqs : List (String × Headers)) (s : ReplaySet) : ReplaySet :=
  reqs.foldl (fun acc r => (shadowpay_call r.1 r.2 acc).2) s

/-- The step-one failure condition of verify_shadowpay: some mandatory field
decodes to the empty string (absent key, undecodable value, or empty value). -/
def mandatoryFieldMissing (h : Headers) : Bool :=
  rustIsEmpty (proofStr h) || rustIsEmpty (nullifierStr h) ||
    rustIsEmpty (merkleRootStr h) || rustIsEmpty (invoiceIdStr h)

/-- The state-independent part of verify_shadowpay: the structural error it
reports, or none when every structural check passes. Proved below to decompose
verify_shadowpay. -/
def structuralCheck (h : Headers) : Option VerifyError :=
  if rustIsEmpty (proofStr h) || rustIsEmpty (nullifierStr h) ||
      rustIsEmpty (merkleRootStr h) || rustIsEmpty (invoiceIdStr h) then
    some .missingHeaders
  else if invoiceIdStr h != "inv_demo_1" then
    some (.preconditionMissing "Unknown or inactive invoice id")
  else if !looks_like_base64 (proofStr h) then
    some (.invalidProof "Proof is not valid base64")
  else if !looks_like_hex32 (merkleRootStr h) then
    some (.invalidProof "Merkle root must be 32 byte hex")
  else if rustStrLen (nullifierStr h) < 16 then
    some (.invalidProof "Nullifier looks too short")
  else if escrowLockedCheck (escrowAccountStr h) then
    some .escrowLocked
  else
    none

/-- A credential passes every structural check of verify_shadowpay. -/
def structurallyValid (h : Headers) : Bool := (structuralCheck h).isNone

/-- A request is accepted when it targets a protected path and the middleware
forwards it there, which requires its credential to verify and its nullifier to
be consumed. -/
def accepted (path : String) (h : Headers) (s : ReplaySet) : Prop :=
  is_protected path = true ∧ (shadowpay_call path h s).1 = ShadowResponse.forwarded

instance (path : String) (h : Headers) (s : ReplaySet) :
    Decidable (accepted path h s) :=
  inferInstanceAs (Decidable (_ ∧ _))

/-- Continuation-byte test of the UTF-8 encoding. -/
def isUtf8Cont (b : Nat) : Bool := decide (0x80 ≤ b ∧ b ≤ 0xBF)

/-- Consume one well-formed UTF-8 code point from the front of a byte list,
following the standard byte-range table; none on malformed input. -/
def utf8DecodeOne : List Nat → Option (List Nat)
  | [] => none
  | b :: rest =>
    if b ≤ 0x7F then some rest
    else if 0xC2 ≤ b ∧ b ≤ 0xDF then
      match rest with
      | c1 :: r => if isUtf8Cont c1 then some r else none
      | [] => none
    else if b = 0xE0 then
      match rest with
      | c1 :: c2 :: r =>
        if decide (0xA0 ≤ c1 ∧ c1 ≤ 0xBF) && isUtf8Cont c2 then some r else none
      | _ => none
    else if (0xE1 ≤ b ∧ b ≤ 0xEC) ∨ b = 0xEE ∨ b = 0xEF then
      match rest with
      | c1 :: c2 :: r =>
        if isUtf8Cont c1 && isUtf8Cont c2 then some r else none
      | _ => none
    else if b = 0xED then
      match rest with
      | c1 :: c2 :: r =>
        if decide (0x80 ≤ c1 ∧ c1 ≤ 0x9F) && isUtf8Cont c2 then some r else none
      | _ => none
    else if b = 0xF0 then
      match rest with
      | c1 :: c2 :: c3 :: r =>
        if decide (0x90 ≤ c1 ∧ c1 ≤ 0xBF) && isUtf8Cont c2 && isUtf8Cont c3 then
          some r else none
      | _ => none
    else if 0xF1 ≤ b ∧ b ≤ 0xF3 then
      match rest with
      | c1 :: c2 :: c3 :: r =>
        if isUtf8Cont c1 && isUtf8Cont c2 && isUtf8Cont c3 then some r else none
      | _ => none
    else if b = 0xF4 then
      match rest with
      | c1 :: c2 :: c3 :: r =>
        if decide (0x80 ≤ c1 ∧ c1 ≤ 0x8F) && isUtf8Cont c2 && isUtf8Cont c3 then
          some r else none
      | _ => none
    else none

/-- Fuelled UTF-8 validity loop; the fuel bounds the number of code points. -/
def utf8ValidFuel : Nat → List Nat → Bool
  | _, [] => true
  | 0, _ :: _ => false
  | fuel + 1, b :: rest =>
    match utf8DecodeOne (b :: rest) with
    | some r => utf8ValidFuel fuel r
    | none => false

/-- Whether a byte sequence is valid UTF-8, i.e. str::from_utf8 succeeds. -/
def utf8Valid (bs : List Nat) : Bool := utf8ValidFuel bs.length bs

/-- Header value built from the code points of an ASCII string, for concrete
test requests. -/
def mkVal (s : String) : Option HeaderValue := some ⟨s.data.map Char.toNat⟩

/-- Concrete header map with the four mandatory values and no optional ones. -/
def mkHeaders (p n m i : String) : Headers :=
  ⟨mkVal p, mkVal n, mkVal m, mkVal i, none, none⟩

/-- A 64-character hex string used as a well-formed merkle root. -/
def hex64 : String :=
  "0123456789abcdef0123456789abcdef0123456789abcdef0123456789abcdef"

/-- A structurally valid credential: base64 proof, 20-character nullifier,
64-hex merkle root, the known invoice id, no escrow header. -/
def goodHeaders : Headers :=
  mkHeaders "dGVzdA==" "nullifier_0123456789" hex64 "inv_demo_1"

/-- Same nullifier as goodHeaders but an unknown invoice id. -/
def badInvoiceHeaders : Headers :=
  mkHeaders "dGVzdA==" "nullifier_0123456789" hex64 "inv_unknown"

/-- All four keys present, but the proof value is a single space. -/
def wsProofHeaders : Headers :=
  mkHeaders " " "nullifier_0123456789" hex64 "inv_demo_1"

/-- Only the proof header is present. -/
def onlyProofHeaders : Headers :=
  ⟨mkVal "dGVzdA==", none, none, none, none, none⟩

/-- No ShadowPay header at all. -/
def bareHeaders : Headers := ⟨none, none, none, none, none, none⟩

/-- Valid credential except that the proof is not base64. -/
def badB64Headers : Headers :=
  mkHeaders "%%%" "nullifier_0123456789" hex64 "inv_demo_1"

/-- Valid credential with the escrow account header set to the locked
sentinel. -/
def lockedEscrowHeaders : Headers :=
  ⟨mkVal "dGVzdA==", mkVal "nullifier_aaaabbbb", mkVal hex64,
    mkVal "inv_demo_1", mkVal "LOCKED_ESCROW_FOR_DEMO", none⟩

/-- All four keys present but the proof value is the invalid UTF-8 byte 0xFF. -/
def undecodableProofHeaders : Headers :=
  ⟨some ⟨[255]⟩, mkVal "nullifier_0123456789", mkVal hex64,
    mkVal "inv_demo_1", none, none⟩

/-- Valid credential except that the merkle root is not 64 hex characters. -/
def badRootHeaders : Headers :=
  mkHeaders "dGVzdA==" "nullifier_0123456789" "abc" "inv_demo_1"

/-- Valid credential except that the nullifier is shorter than 16 characters. -/
def shortNullHeaders : Headers :=
  mkHeaders "dGVzdA==" "short" hex64 "inv_demo_1"

/-- All four keys present but the proof value is the empty string. -/
def emptyProofHeaders : Headers :=
  mkHeaders "" "nullifier_0123456789" hex64 "inv_demo_1"


/-- Decomposition of verify_shadowpay into its structural part and the replay
part: a structural error leaves the state alone, otherwise the replay set is
consulted and, on success, extended. -/
theorem verify_decomp (h : Headers) (s : ReplaySet) :
    verify_shadowpay h s =
      match structuralCheck h with
      | some e => (.err e, s)
      | none =>
        if s.contains (nullifierStr h) then
          (.err (.doubleSpend "Nullifier already used"), s)
        else (.ok, nullifierStr h :: s) := by
  unfold verify_shadowpay structuralCheck
  split_ifs <;> rfl

/-- Membership form of List.contains for the replay set. -/
theorem replay_contains_iff (s : ReplaySet) (n : String) :
    s.contains n = true ↔ n ∈ s := by
  simp [List.contains]


/-- Branch equation: a structural error is returned with the state unchanged. -/
theorem verify_of_structural_some (h : Headers) (s : ReplaySet) (e : VerifyError)
    (hsc : structuralCheck h = some e) : verify_shadowpay h s = (.err e, s) := by
  rw [verify_decomp, hsc]

/-- Branch equation: a structurally valid credential with a used nullifier is a
double spend, state unchanged. -/
theorem verify_of_structural_none_mem (h : Headers) (s : ReplaySet)
    (hsc : structuralCheck h = none) (hm : s.contains (nullifierStr h) = true) :
    verify_shadowpay h s = (.err (.doubleSpend "Nullifier already used"), s) := by
  rw [verify_decomp, hsc]
  exact if_pos hm

/-- Branch equation: a structurally valid credential with a fresh nullifier is
accepted and the nullifier inserted. -/
theorem verify_of_structural_none_fresh (h : Headers) (s : ReplaySet)
    (hsc : structuralCheck h = none) (hm : s.contains (nullifierStr h) = false) :
    verify_shadowpay h s = (.ok, nullifierStr h :: s) := by
  rw [verify_decomp, hsc]
  exact if_neg (fun hc => by rw [hc] at hm; cases hm)

/-- Effect of one verification on the replay set: unchanged, or extended with
the nullifier of the request. -/
theorem verify_state_cases (h : Headers) (s : ReplaySet) :
    (verify_shadowpay h s).2 = s ∨ (verify_shadowpay h s).2 = nullifierStr h :: s := by
  cases hsc : structuralCheck h with
  | some e => rw [verify_of_structural_some h s e hsc]; left; rfl
  | none =>
      cases hm : s.contains (nullifierStr h) with
      | true => rw [verify_of_structural_none_mem h s hsc hm]; left; rfl
      | false => rw [verify_of_structural_none_fresh h s hsc hm]; right; rfl

/-- One verification never removes a nullifier from the replay set. -/
theorem verify_subset (h : Headers) (s : ReplaySet) : s ⊆ (verify_shadowpay h s).2 := by
  rcases verify_state_cases h s with h1 | h1 <;> rw [h1]
  · exact fun x hx => hx
  · exact List.subset_cons_self _ _

/-- Effect of one middleware call on the replay set: unchanged, or extended
with the nullifier of the request. -/
theorem call_state_cases (p : String) (h : Headers) (s : ReplaySet) :
    (shadowpay_call p h s).2 = s ∨ (shadowpay_call p h s).2 = nullifierStr h :: s := by
  unfold shadowpay_call
  split_ifs
  · left; rfl
  · left; rfl
  · rcases hv : verify_shadowpay h s with ⟨r, s2⟩
    have h2 := verify_state_cases h s
    rw [hv] at h2
    cases r with
    | ok => simpa using h2
    | err e => cases e <;> simpa using h2

/-- One middleware call never removes a nullifier from the replay set. -/
theorem call_subset (p : String) (h : Headers) (s : ReplaySet) :
    s ⊆ (shadowpay_call p h s).2 := by
  rcases call_state_cases p h s with h1 | h1 <;> rw [h1]
  · exact fun x hx => hx
  · exact List.subset_cons_self _ _

/-- A whole run of requests never removes a nullifier from the replay set. -/
theorem runAll_subset (reqs : List (String × Headers)) (s : ReplaySet) :
    s ⊆ runAll reqs s := by
  induction reqs generalizing s with
  | nil => exact fun x hx => hx
  | cons r t ih =>
      intro x hx
      simp only [runAll, List.foldl_cons]
      exact ih (shadowpay_call r.1 r.2 s).2 (call_subset r.1 r.2 s hx)

/-- Every nullifier in the final replay set was in the initial one or is the
nullifier of one of the processed requests. -/
theorem mem_runAll_source (n : String) (reqs : List (String × Headers)) (s : ReplaySet) :
    n ∈ runAll reqs s → n ∈ s ∨ ∃ r ∈ reqs, nullifierStr r.2 = n := by
  induction reqs generalizing s with
  | nil => intro hn; exact Or.inl hn
  | cons r t ih =>
      intro hn
      simp only [runAll, List.foldl_cons] at hn
      rcases ih (shadowpay_call r.1 r.2 s).2 hn with hmem | ⟨r2, hr2, hn2⟩
      · rcases call_state_cases r.1 r.2 s with h1 | h1 <;> rw [h1] at hmem
        · exact Or.inl hmem
        · rcases List.mem_cons.mp hmem with he | he
          · exact Or.inr ⟨r, List.mem_cons_self r t, he.symm⟩
          · exact Or.inl he
      · exact Or.inr ⟨r2, List.mem_cons_of_mem r hr2, hn2⟩

/-- On a protected path with all four keys present, the state after the call is
exactly the state produced by the verifier. -/
theorem call_state_eq_verify (p : String) (h : Headers) (s : ReplaySet)
    (hp : is_protected p = true) (hk : has_shadowpay_headers h = true) :
    (shadowpay_call p h s).2 = (verify_shadowpay h s).2 := by
  unfold shadowpay_call
  rw [hp, hk]
  rcases hv : verify_shadowpay h s with ⟨r, s2⟩
  cases r with
  | ok => rfl
  | err e => cases e <;> rfl

/-- On a protected path the middleware forwards exactly when the four keys are
present and the verifier accepts. -/
theorem forwarded_iff (p : String) (h : Headers) (s : ReplaySet)
    (hp : is_protected p = true) :
    (shadowpay_call p h s).1 = .forwarded ↔
      has_shadowpay_headers h = true ∧ (verify_shadowpay h s).1 = .ok := by
  unfold shadowpay_call
  rw [hp]
  by_cases hk : has_shadowpay_headers h = true
  · rw [hk]
    rcases hv : verify_shadowpay h s with ⟨r, s2⟩
    cases r with
    | ok => simp
    | err e => cases e <;> simp
  · simp only [Bool.not_eq_true] at hk
    rw [hk]
    simp

/-- The verifier accepts exactly the structurally valid credentials whose
nullifier is fresh. -/
theorem verify_ok_iff (h : Headers) (s : ReplaySet) :
    (verify_shadowpay h s).1 = .ok ↔
      structurallyValid h = true ∧ nullifierStr h ∉ s := by
  cases hsc : structuralCheck h with
  | some e =>
      rw [verify_of_structural_some h s e hsc]
      simp [structurallyValid, hsc]
  | none =>
      cases hm : s.contains (nullifierStr h) with
      | true =>
          rw [verify_of_structural_none_mem h s hsc hm]
          simp [structurallyValid, hsc, (replay_contains_iff s _).mp hm]
      | false =>
          have hnm : nullifierStr h ∉ s := fun hmem => by
            rw [(replay_contains_iff s _).mpr hmem] at hm
            cases hm
          rw [verify_of_structural_none_fresh h s hsc hm]
          simp [structurallyValid, hsc, hnm]

/-- An accepting verification inserts exactly the nullifier of the request. -/
theorem verify_ok_state (h : Headers) (s : ReplaySet)
    (hok : (verify_shadowpay h s).1 = .ok) :
    (verify_shadowpay h s).2 = nullifierStr h :: s := by
  cases hsc : structuralCheck h with
  | some e => rw [verify_of_structural_some h s e hsc] at hok; cases hok
  | none =>
      cases hm : s.contains (nullifierStr h) with
      | true => rw [verify_of_structural_none_mem h s hsc hm] at hok; cases hok
      | false => rw [verify_of_structural_none_fresh h s hsc hm]

/-- A rejecting verification leaves the replay set unchanged. -/
theorem verify_err_state (h : Headers) (s : ReplaySet) (e : VerifyError)
    (he : (verify_shadowpay h s).1 = .err e) :
    (verify_shadowpay h s).2 = s := by
  cases hsc : structuralCheck h with
  | some e2 => rw [verify_of_structural_some h s e2 hsc]
  | none =>
      cases hm : s.contains (nullifierStr h) with
      | true => rw [verify_of_structural_none_mem h s hsc hm]
      | false => rw [verify_of_structural_none_fresh h s hsc hm] at he; cases he

/-- A structurally invalid credential is rejected without reading the replay
set, which is returned unchanged; the error is the one computed on the empty
set. -/
theorem verify_structural_fail (h : Headers) (s : ReplaySet)
    (hv : structurallyValid h = false) :
    verify_shadowpay h s = ((verify_shadowpay h initialReplaySet).1, s) := by
  cases hsc : structuralCheck h with
  | some e =>
      rw [verify_of_structural_some h s e hsc,
        verify_of_structural_some h initialReplaySet e hsc]
  | none => simp [structurallyValid, hsc] at hv


/-- A header whose decoded string is non-empty must have its key present. -/
theorem isSome_of_nonempty (o : Option HeaderValue)
    (he : rustIsEmpty (getHeaderStr o) = false) : o.isSome = true := by
  cases o with
  | none => simp [getHeaderStr, rustIsEmpty] at he
  | some v => rfl

/-- Step one of the structural checks passing forces all four mandatory keys to
be present, so the middleware pre-check also passes. -/
theorem has_headers_of_not_missing (h : Headers)
    (hm : mandatoryFieldMissing h = false) : has_shadowpay_headers h = true := by
  unfold mandatoryFieldMissing at hm
  simp only [Bool.or_eq_false_iff] at hm
  obtain ⟨⟨⟨h1, h2⟩, h3⟩, h4⟩ := hm
  unfold has_shadowpay_headers proofStr nullifierStr merkleRootStr invoiceIdStr at *
  rw [isSome_of_nonempty _ h1, isSome_of_nonempty _ h2, isSome_of_nonempty _ h3,
    isSome_of_nonempty _ h4]
  rfl

/-- A structurally valid credential passes step one. -/
theorem not_missing_of_structValid (h : Headers) (hv : structurallyValid h = true) :
    mandatoryFieldMissing h = false := by
  cases hm : mandatoryFieldMissing h with
  | false => rfl
  | true =>
      unfold mandatoryFieldMissing at hm
      unfold structurallyValid structuralCheck at hv
      rw [if_pos hm] at hv
      cases hv

/-- A structurally valid credential has all four mandatory keys present. -/
theorem has_headers_of_structValid (h : Headers) (hv : structurallyValid h = true) :
    has_shadowpay_headers h = true :=
  has_headers_of_not_missing h (not_missing_of_structValid h hv)

/-- Characters of the code point of an ASCII byte: Char.ofNat below the
surrogate range round-trips through toNat. -/
theorem char_ofNat_toNat (b : Nat) (hb : b < 0xd800) : (Char.ofNat b).toNat = b := by
  unfold Char.ofNat
  rw [dif_pos (Or.inl hb)]
  simp [Char.ofNatAux, Char.toNat, UInt32.toNat]

/-- Every character of a decoded header string is ASCII. -/
theorem getHeaderStr_ascii (o : Option HeaderValue) :
    ∀ c ∈ (getHeaderStr o).data, c.toNat ≤ 0x7F := by
  cases o with
  | none => intro c hc; simp [getHeaderStr] at hc
  | some v =>
      intro c hc
      simp only [getHeaderStr, Option.some_bind] at hc
      unfold headerValueToStr at hc
      by_cases hall : v.bytes.all isVisibleAsciiByte = true
      · rw [if_pos hall, Option.getD_some] at hc
        rcases List.mem_map.mp hc with ⟨b, hb, hbc⟩
        have hvb := of_decide_eq_true (List.all_eq_true.mp hall b hb)
        have hb7 : b < 0xd800 := by omega
        rw [← hbc, char_ofNat_toNat b hb7]
        omega
      · rw [if_neg hall] at hc
        simp at hc

/-- The UTF-8 byte length of a list of ASCII characters is its length. -/
theorem sum_utf8Len_eq_length (l : List Char) (h : ∀ c ∈ l, c.toNat ≤ 0x7F) :
    (l.map charUtf8Len).sum = l.length := by
  induction l with
  | nil => rfl
  | cons c t ih =>
      have hc : charUtf8Len c = 1 := by
        unfold charUtf8Len
        rw [if_pos (h c (List.mem_cons_self c t))]
      rw [List.map_cons, List.sum_cons, hc,
        ih (fun x hx => h x (List.mem_cons_of_mem c hx)), List.length_cons]
      omega

/-- For decoded header strings the Rust byte length is the character count. -/
theorem rustStrLen_header (o : Option HeaderValue) :
    rustStrLen (getHeaderStr o) = (getHeaderStr o).data.length :=
  sum_utf8Len_eq_length _ (getHeaderStr_ascii o)

/-- Specialization to the nullifier header of a request. -/
theorem rustStrLen_nullifierStr (h : Headers) :
    rustStrLen (nullifierStr h) = (nullifierStr h).data.length :=
  rustStrLen_header h.nullifierH

/-- ASCII hex digits are ASCII characters. -/
theorem hexdigit_ascii (c : Char) (hc : rustIsAsciiHexdigit c = true) :
    c.toNat ≤ 0x7F := by
  have := of_decide_eq_true hc
  omega

/-- looks_like_hex32 counted in characters: the byte-length test of the source
agrees with the character count because hex digits are ASCII. -/
theorem looks_like_hex32_chars (s : String) :
    looks_like_hex32 s =
      ((rustTrim s).data.length == 64 && (rustTrim s).data.all rustIsAsciiHexdigit) := by
  simp only [looks_like_hex32]
  cases hall : (rustTrim s).data.all rustIsAsciiHexdigit with
  | true =>
      have hlen : rustStrLen (rustTrim s) = (rustTrim s).data.length := by
        apply sum_utf8Len_eq_length
        intro c hc
        exact hexdigit_ascii c (List.all_eq_true.mp hall c hc)
      rw [hlen]
  | false => rw [Bool.and_false, Bool.and_false]

/-- Decoding one code point from a list headed by an ASCII byte consumes it. -/
theorem utf8DecodeOne_ascii (b : Nat) (t : List Nat) (hb : b ≤ 0x7F) :
    utf8DecodeOne (b :: t) = some t := by
  simp only [utf8DecodeOne]
  rw [if_pos hb]

/-- A byte list of visible ASCII bytes is valid UTF-8. -/
theorem utf8Valid_of_visible (bs : List Nat) (hb : bs.all isVisibleAsciiByte = true) :
    utf8Valid bs = true := by
  induction bs with
  | nil => rfl
  | cons b t ih =>
      have hvb := of_decide_eq_true (List.all_eq_true.mp hb b (List.mem_cons_self b t))
      have hb7 : b ≤ 0x7F := by omega
      have ht : t.all isVisibleAsciiByte = true := by
        rw [List.all_eq_true] at hb ⊢
        exact fun x hx => hb x (List.mem_cons_of_mem b hx)
      show utf8ValidFuel (b :: t).length (b :: t) = true
      simp only [List.length_cons]
      unfold utf8ValidFuel
      rw [utf8DecodeOne_ascii b t hb7]
      exact ih ht

/-- A header value that is not valid UTF-8 fails to_str and decodes to none. -/
theorem headerValueToStr_of_invalid_utf8 (v : HeaderValue)
    (hv : utf8Valid v.bytes = false) : headerValueToStr v = none := by
  unfold headerValueToStr
  have hno : ¬ v.bytes.all isVisibleAsciiByte = true := fun hall => by
    rw [utf8Valid_of_visible v.bytes hall] at hv
    cases hv
  rw [if_neg hno]


/-- A Bool known to be false is not true. -/
theorem ne_true_of_false (b : Bool) (h : b = false) : ¬ b = true := by
  rw [h]
  exact Bool.false_ne_true

/-- Step-one failure branch of the verifier: some mandatory field empty. -/
theorem verify_missing_of_field (h : Headers) (s : ReplaySet)
    (hm : mandatoryFieldMissing h = true) :
    verify_shadowpay h s = (.err .missingHeaders, s) := by
  apply verify_of_structural_some
  unfold mandatoryFieldMissing at hm
  unfold structuralCheck
  rw [if_pos hm]

/-- Once step one passes, the verifier never reports MissingHeaders. -/
theorem structuralCheck_not_missing (h : Headers)
    (hm : mandatoryFieldMissing h = false) :
    structuralCheck h ≠ some .missingHeaders := by
  unfold mandatoryFieldMissing at hm
  unfold structuralCheck
  rw [if_neg (ne_true_of_false _ hm)]
  split_ifs <;> simp

/-- The undecodable value of a present header decodes to the empty string. -/
theorem getHeaderStr_undecodable (v : HeaderValue)
    (hu : utf8Valid v.bytes = false) : getHeaderStr (some v) = "" := by
  unfold getHeaderStr
  rw [Option.some_bind, headerValueToStr_of_invalid_utf8 v hu]
  rfl

/-- On a protected path with the four keys present, the middleware response is
the fixed mapping of the verifier outcome and the state is the verifier
state. -/
theorem call_of_verify (p : String) (h : Headers) (s : ReplaySet)
    (hp : is_protected p = true) (hk : has_shadowpay_headers h = true) :
    shadowpay_call p h s =
      (match (verify_shadowpay h s).1 with
        | .ok => .forwarded
        | .err .missingHeaders =>
            .rejected 434 "Private Payment Proof Required"
              "ShadowPay proof headers are incomplete."
        | .err (.invalidProof msg) => .rejected 422 "Invalid ShadowPay Proof" msg
        | .err (.doubleSpend msg) => .rejected 409 "ShadowPay Nullifier Conflict" msg
        | .err .escrowLocked =>
            .rejected 423 "ShadowPay Escrow Locked"
              "Escrow account is locked for this demo."
        | .err (.preconditionMissing msg) =>
            .rejected 428 "ShadowPay Precondition Required" msg,
        (verify_shadowpay h s).2) := by
  unfold shadowpay_call
  rw [hp, hk]
  rcases hv : verify_shadowpay h s with ⟨r, s2⟩
  cases r with
  | ok => rfl
  | err e => cases e <;> rfl


/-- C8: a request to an unprotected path is always forwarded, whatever the
headers contain, and the replay set is returned unchanged (so it is neither
read nor written). -/
theorem unprotected_pass_through (p : String) (h : Headers) (s : ReplaySet)
    (hp : is_protected p = false) :
    shadowpay_call p h s = (.forwarded, s) := by
  unfold shadowpay_call
  rw [hp]
  rfl

/-- Witness for C8 at a concrete unprotected path with a nonempty replay set. -/
theorem unprotected_pass_through_witness :
    shadowpay_call "/v1/public" goodHeaders ["used_nullifier_0000"] =
      (.forwarded, ["used_nullifier_0000"]) :=
  unprotected_pass_through "/v1/public" goodHeaders ["used_nullifier_0000"] (by decide)

/-- C1: the replay set starts empty, every middleware call only grows it, and
once a request has been accepted on a protected path, no later request carrying
the same nullifier value is ever accepted again, whatever requests happen in
between. -/
theorem replay_protection_invariant :
    initialReplaySet = [] ∧
    (∀ p h s, s ⊆ (shadowpay_call p h s).2) ∧
    (∀ p h s p2 h2 reqs, accepted p h s → nullifierStr h2 = nullifierStr h →
      ¬ accepted p2 h2 (runAll reqs (shadowpay_call p h s).2)) := by
  refine ⟨rfl, call_subset, ?_⟩
  intro p h s p2 h2 reqs hacc hn hacc2
  obtain ⟨hp, hfwd⟩ := hacc
  obtain ⟨hk, hok⟩ := (forwarded_iff p h s hp).mp hfwd
  have hmem : nullifierStr h ∈ (shadowpay_call p h s).2 := by
    rw [call_state_eq_verify p h s hp hk, verify_ok_state h s hok]
    exact List.mem_cons_self _ _
  have hmem2 : nullifierStr h ∈ runAll reqs (shadowpay_call p h s).2 :=
    runAll_subset reqs _ hmem
  obtain ⟨hp2, hfwd2⟩ := hacc2
  obtain ⟨hk2, hok2⟩ := (forwarded_iff p2 h2 _ hp2).mp hfwd2
  obtain ⟨hv2, hnot2⟩ := (verify_ok_iff h2 _).mp hok2
  rw [hn] at hnot2
  exact hnot2 hmem2

/-- Witness for C1: a concrete accepted request whose immediate replay is no
longer accepted. -/
theorem replay_protection_invariant_witness :
    accepted "/v1/protected" goodHeaders initialReplaySet ∧
    ¬ accepted "/v1/protected" goodHeaders
      (runAll [] (shadowpay_call "/v1/protected" goodHeaders initialReplaySet).2) :=
  ⟨by decide,
    replay_protection_invariant.2.2 "/v1/protected" goodHeaders initialReplaySet
      "/v1/protected" goodHeaders [] (by decide) rfl⟩

/-- C3: the error mapping is the fixed table of the source: the bare pre-check
yields 434 with the required-proof title, InvalidProof maps to 422 with its
message as detail, DoubleSpend to 409, EscrowLocked to 423, and
PreconditionMissing to 428, each with its fixed title; an accepting
verification produces no error body and the request is forwarded. -/
theorem error_taxonomy_mapping (p : String) (h : Headers) (s : ReplaySet)
    (hp : is_protected p = true) :
    (has_shadowpay_headers h = false →
      (shadowpay_call p h s).1 = .rejected 434 "Private Payment Proof Required"
        "ShadowPay proof headers are required on this endpoint.") ∧
    (∀ msg, has_shadowpay_headers h = true →
      (verify_shadowpay h s).1 = .err (.invalidProof msg) →
      (shadowpay_call p h s).1 = .rejected 422 "Invalid ShadowPay Proof" msg) ∧
    (∀ msg, has_shadowpay_headers h = true →
      (verify_shadowpay h s).1 = .err (.doubleSpend msg) →
      (shadowpay_call p h s).1 = .rejected 409 "ShadowPay Nullifier Conflict" msg) ∧
    (has_shadowpay_headers h = true →
      (verify_shadowpay h s).1 = .err .escrowLocked →
      (shadowpay_call p h s).1 = .rejected 423 "ShadowPay Escrow Locked"
        "Escrow account is locked for this demo.") ∧
    (∀ msg, has_shadowpay_headers h = true →
      (verify_shadowpay h s).1 = .err (.preconditionMissing msg) →
      (shadowpay_call p h s).1 = .rejected 428 "ShadowPay Precondition Required" msg) ∧
    (has_shadowpay_headers h = true → (verify_shadowpay h s).1 = .ok →
      (shadowpay_call p h s).1 = .forwarded) := by
  refine ⟨?_, ?_, ?_, ?_, ?_, ?_⟩
  · intro hk
    unfold shadowpay_call
    rw [hp, hk]
    rfl
  · intro msg hk hv
    rw [call_of_verify p h s hp hk, hv]
  · intro msg hk hv
    rw [call_of_verify p h s hp hk, hv]
  · intro hk hv
    rw [call_of_verify p h s hp hk, hv]
  · intro msg hk hv
    rw [call_of_verify p h s hp hk, hv]
  · intro hk hv
    rw [call_of_verify p h s hp hk, hv]

/-- Witness for C3: one concrete request per row of the table. -/
theorem error_taxonomy_mapping_witness :
    (shadowpay_call "/v1/protected" bareHeaders []).1 =
      .rejected 434 "Private Payment Proof Required"
        "ShadowPay proof headers are required on this endpoint." ∧
    (shadowpay_call "/v1/protected" badB64Headers []).1 =
      .rejected 422 "Invalid ShadowPay Proof" "Proof is not valid base64" ∧
    (shadowpay_call "/v1/protected" goodHeaders ["nullifier_0123456789"]).1 =
      .rejected 409 "ShadowPay Nullifier Conflict" "Nullifier already used" ∧
    (shadowpay_call "/v1/protected" lockedEscrowHeaders []).1 =
      .rejected 423 "ShadowPay Escrow Locked" "Escrow account is locked for this demo." ∧
    (shadowpay_call "/v1/protected" badInvoiceHeaders []).1 =
      .rejected 428 "ShadowPay Precondition Required" "Unknown or inactive invoice id" ∧
    (shadowpay_call "/v1/protected" goodHeaders []).1 = .forwarded :=
  ⟨(error_taxonomy_mapping "/v1/protected" bareHeaders [] (by decide)).1 (by decide),
   (error_taxonomy_mapping "/v1/protected" badB64Headers [] (by decide)).2.1
     "Proof is not valid base64" (by decide) (by decide),
   (error_taxonomy_mapping "/v1/protected" goodHeaders ["nullifier_0123456789"]
     (by decide)).2.2.1 "Nullifier already used" (by decide) (by decide),
   (error_taxonomy_mapping "/v1/protected" lockedEscrowHeaders [] (by decide)).2.2.2.1
     (by decide) (by decide),
   (error_taxonomy_mapping "/v1/protected" badInvoiceHeaders [] (by decide)).2.2.2.2.1
     "Unknown or inactive invoice id" (by decide) (by decide),
   (error_taxonomy_mapping "/v1/protected" goodHeaders [] (by decide)).2.2.2.2.2
     (by decide) (by decide)⟩

/-- C7: a credential failing any structural check leaves the replay set
untouched and its outcome does not depend on the set; an accepted credential
inserts its nullifier exactly once, at the head of a set that did not contain
it. -/
theorem structural_failure_frames_replay_set (h : Headers) (s : ReplaySet) :
    (structurallyValid h = false →
      verify_shadowpay h s = ((verify_shadowpay h initialReplaySet).1, s)) ∧
    ((verify_shadowpay h s).1 = .ok →
      (verify_shadowpay h s).2 = nullifierStr h :: s ∧ nullifierStr h ∉ s) := by
  refine ⟨verify_structural_fail h s, ?_⟩
  intro hok
  exact ⟨verify_ok_state h s hok, ((verify_ok_iff h s).mp hok).2⟩

/-- Witness for C7: a concrete structural failure framing a nonempty set, and a
concrete accepted credential inserting its nullifier once. -/
theorem structural_failure_frames_replay_set_witness :
    verify_shadowpay badInvoiceHeaders ["nullifier_aaaabbbb"] =
      ((verify_shadowpay badInvoiceHeaders initialReplaySet).1, ["nullifier_aaaabbbb"]) ∧
    ((verify_shadowpay goodHeaders []).2 = nullifierStr goodHeaders :: [] ∧
      nullifierStr goodHeaders ∉ ([] : ReplaySet)) :=
  ⟨(structural_failure_frames_replay_set badInvoiceHeaders ["nullifier_aaaabbbb"]).1
     (by decide),
   (structural_failure_frames_replay_set goodHeaders []).2 (by decide)⟩

/-- C10: on a protected path with all four keys present, if one of the four
mandatory header values is not valid UTF-8 it is read as the empty string, so
the request deterministically gets the 434 response with the incomplete detail
and the replay set is unchanged. -/
theorem undecodable_header_yields_incomplete (p : String) (h : Headers)
    (s : ReplaySet) (hp : is_protected p = true)
    (hk : has_shadowpay_headers h = true)
    (hbad : (∃ v, h.proofH = some v ∧ utf8Valid v.bytes = false) ∨
            (∃ v, h.nullifierH = some v ∧ utf8Valid v.bytes = false) ∨
            (∃ v, h.merkleRootH = some v ∧ utf8Valid v.bytes = false) ∨
            (∃ v, h.invoiceIdH = some v ∧ utf8Valid v.bytes = false)) :
    shadowpay_call p h s =
      (.rejected 434 "Private Payment Proof Required"
        "ShadowPay proof headers are incomplete.", s) := by
  have hm : mandatoryFieldMissing h = true := by
    rcases hbad with ⟨v, hv, hu⟩ | ⟨v, hv, hu⟩ | ⟨v, hv, hu⟩ | ⟨v, hv, hu⟩
    · have hempty : proofStr h = "" := by
        unfold proofStr
        rw [hv]
        exact getHeaderStr_undecodable v hu
      have he : rustIsEmpty (proofStr h) = true := by rw [hempty]; rfl
      simp [mandatoryFieldMissing, he]
    · have hempty : nullifierStr h = "" := by
        unfold nullifierStr
        rw [hv]
        exact getHeaderStr_undecodable v hu
      have he : rustIsEmpty (nullifierStr h) = true := by rw [hempty]; rfl
      simp [mandatoryFieldMissing, he]
    · have hempty : merkleRootStr h = "" := by
        unfold merkleRootStr
        rw [hv]
        exact getHeaderStr_undecodable v hu
      have he : rustIsEmpty (merkleRootStr h) = true := by rw [hempty]; rfl
      simp [mandatoryFieldMissing, he]
    · have hempty : invoiceIdStr h = "" := by
        unfold invoiceIdStr
        rw [hv]
        exact getHeaderStr_undecodable v hu
      have he : rustIsEmpty (invoiceIdStr h) = true := by rw [hempty]; rfl
      simp [mandatoryFieldMissing, he]
  have hv2 : verify_shadowpay h s = (.err .missingHeaders, s) :=
    verify_missing_of_field h s hm
  unfold shadowpay_call
  rw [hp, hk, hv2]
  rfl

/-- Witness for C10: the proof header set to the invalid UTF-8 byte 0xFF. -/
theorem undecodable_header_yields_incomplete_witness :
    shadowpay_call "/v1/protected" undecodableProofHeaders [] =
      (.rejected 434 "Private Payment Proof Required"
        "ShadowPay proof headers are incomplete.", []) :=
  undecodable_header_yields_incomplete "/v1/protected" undecodableProofHeaders []
    (by decide) (by decide) (Or.inl ⟨⟨[255]⟩, rfl, by decide⟩)


/-- C4: the validator runs its checks in the documented order with
short-circuit evaluation: field presence and non-emptiness, invoice id, base64
proof, 64-ASCII-hex-character trimmed merkle root, nullifier length at least
16 characters, escrow lock; the first failing check fixes the result, so no
later error is ever returned when an earlier check fails. -/
theorem checks_run_in_order (h : Headers) (s : ReplaySet) :
    (mandatoryFieldMissing h = true →
      (verify_shadowpay h s).1 = .err .missingHeaders) ∧
    (mandatoryFieldMissing h = false → invoiceIdStr h ≠ "inv_demo_1" →
      (verify_shadowpay h s).1 =
        .err (.preconditionMissing "Unknown or inactive invoice id")) ∧
    (mandatoryFieldMissing h = false → invoiceIdStr h = "inv_demo_1" →
      looks_like_base64 (proofStr h) = false →
      (verify_shadowpay h s).1 = .err (.invalidProof "Proof is not valid base64")) ∧
    (mandatoryFieldMissing h = false → invoiceIdStr h = "inv_demo_1" →
      looks_like_base64 (proofStr h) = true →
      ¬ ((rustTrim (merkleRootStr h)).data.length = 64 ∧
         (rustTrim (merkleRootStr h)).data.all rustIsAsciiHexdigit = true) →
      (verify_shadowpay h s).1 = .err (.invalidProof "Merkle root must be 32 byte hex")) ∧
    (mandatoryFieldMissing h = false → invoiceIdStr h = "inv_demo_1" →
      looks_like_base64 (proofStr h) = true →
      (rustTrim (merkleRootStr h)).data.length = 64 ∧
        (rustTrim (merkleRootStr h)).data.all rustIsAsciiHexdigit = true →
      (nullifierStr h).data.length < 16 →
      (verify_shadowpay h s).1 = .err (.invalidProof "Nullifier looks too short")) ∧
    (mandatoryFieldMissing h = false → invoiceIdStr h = "inv_demo_1" →
      looks_like_base64 (proofStr h) = true →
      (rustTrim (merkleRootStr h)).data.length = 64 ∧
        (rustTrim (merkleRootStr h)).data.all rustIsAsciiHexdigit = true →
      16 ≤ (nullifierStr h).data.length →
      escrowAccountStr h = some "LOCKED_ESCROW_FOR_DEMO" →
      (verify_shadowpay h s).1 = .err .escrowLocked) := by
  refine ⟨?_, ?_, ?_, ?_, ?_, ?_⟩
  · intro hm
    rw [verify_missing_of_field h s hm]
  · intro hm h2
    have hsc : structuralCheck h =
        some (.preconditionMissing "Unknown or inactive invoice id") := by
      unfold mandatoryFieldMissing at hm
      unfold structuralCheck
      rw [if_neg (ne_true_of_false _ hm), if_pos (bne_iff_ne.mpr h2)]
    rw [verify_of_structural_some h s _ hsc]
  · intro hm h2 h3
    have hsc : structuralCheck h = some (.invalidProof "Proof is not valid base64") := by
      unfold mandatoryFieldMissing at hm
      unfold structuralCheck
      rw [if_neg (ne_true_of_false _ hm),
        if_neg (ne_true_of_false _ (by rw [h2]; exact bne_self_eq_false _)),
        if_pos (by rw [h3]; rfl)]
    rw [verify_of_structural_some h s _ hsc]
  · intro hm h2 h3 h4
    have hx : looks_like_hex32 (merkleRootStr h) = false := by
      rw [looks_like_hex32_chars]
      cases hl : ((rustTrim (merkleRootStr h)).data.length == 64) with
      | false => rfl
      | true =>
          cases ha : (rustTrim (merkleRootStr h)).data.all rustIsAsciiHexdigit with
          | false => rfl
          | true => exact absurd ⟨beq_iff_eq.mp hl, ha⟩ h4
    have hsc : structuralCheck h = some (.invalidProof "Merkle root must be 32 byte hex") := by
      unfold mandatoryFieldMissing at hm
      unfold structuralCheck
      rw [if_neg (ne_true_of_false _ hm),
        if_neg (ne_true_of_false _ (by rw [h2]; exact bne_self_eq_false _)),
        if_neg (ne_true_of_false _ (by rw [h3]; rfl)),
        if_pos (by rw [hx]; rfl)]
    rw [verify_of_structural_some h s _ hsc]
  · intro hm h2 h3 h4 h5
    have hx : looks_like_hex32 (merkleRootStr h) = true := by
      rw [looks_like_hex32_chars, h4.2, Bool.and_true, h4.1]
      rfl
    have hb : rustStrLen (nullifierStr h) < 16 := by
      rw [rustStrLen_nullifierStr]
      exact h5
    have hsc : structuralCheck h = some (.invalidProof "Nullifier looks too short") := by
      unfold mandatoryFieldMissing at hm
      unfold structuralCheck
      rw [if_neg (ne_true_of_false _ hm),
        if_neg (ne_true_of_false _ (by rw [h2]; exact bne_self_eq_false _)),
        if_neg (ne_true_of_false _ (by rw [h3]; rfl)),
        if_neg (ne_true_of_false _ (by rw [hx]; rfl)),
        if_pos hb]
    rw [verify_of_structural_some h s _ hsc]
  · intro hm h2 h3 h4 h5 h6
    have hx : looks_like_hex32 (merkleRootStr h) = true := by
      rw [looks_like_hex32_chars, h4.2, Bool.and_true, h4.1]
      rfl
    have hb : ¬ rustStrLen (nullifierStr h) < 16 := by
      rw [rustStrLen_nullifierStr]
      omega
    have hsc : structuralCheck h = some .escrowLocked := by
      unfold mandatoryFieldMissing at hm
      unfold structuralCheck
      rw [if_neg (ne_true_of_false _ hm),
        if_neg (ne_true_of_false _ (by rw [h2]; exact bne_self_eq_false _)),
        if_neg (ne_true_of_false _ (by rw [h3]; rfl)),
        if_neg (ne_true_of_false _ (by rw [hx]; rfl)),
        if_neg hb, if_pos (by rw [h6]; rfl)]
    rw [verify_of_structural_some h s _ hsc]

/-- Witness for C4: one concrete request per check, each failing exactly at its
own step. -/
theorem checks_run_in_order_witness :
    (verify_shadowpay bareHeaders []).1 = .err .missingHeaders ∧
    (verify_shadowpay badInvoiceHeaders []).1 =
      .err (.preconditionMissing "Unknown or inactive invoice id") ∧
    (verify_shadowpay badB64Headers []).1 =
      .err (.invalidProof "Proof is not valid base64") ∧
    (verify_shadowpay badRootHeaders []).1 =
      .err (.invalidProof "Merkle root must be 32 byte hex") ∧
    (verify_shadowpay shortNullHeaders []).1 =
      .err (.invalidProof "Nullifier looks too short") ∧
    (verify_shadowpay lockedEscrowHeaders []).1 = .err .escrowLocked :=
  ⟨(checks_run_in_order bareHeaders []).1 (by decide),
   (checks_run_in_order badInvoiceHeaders []).2.1 (by decide) (by decide),
   (checks_run_in_order badB64Headers []).2.2.1 (by decide) (by decide) (by decide),
   (checks_run_in_order badRootHeaders []).2.2.2.1 (by decide) (by decide) (by decide)
     (by decide),
   (checks_run_in_order shortNullHeaders []).2.2.2.2.1 (by decide) (by decide)
     (by decide) (by decide) (by decide),
   (checks_run_in_order lockedEscrowHeaders []).2.2.2.2.2 (by decide) (by decide)
     (by decide) (by decide) (by decide) (by decide)⟩

/-- C9: once the first four checks pass, a nullifier shorter than 16 characters
is rejected with the too-short error, and one of at least 16 characters passes
the length check: the verifier never returns the too-short error for it. -/
theorem nullifier_length_threshold (h : Headers) (s : ReplaySet)
    (h1 : mandatoryFieldMissing h = false)
    (h2 : invoiceIdStr h = "inv_demo_1")
    (h3 : looks_like_base64 (proofStr h) = true)
    (h4 : looks_like_hex32 (merkleRootStr h) = true) :
    ((nullifierStr h).data.length < 16 →
      (verify_shadowpay h s).1 = .err (.invalidProof "Nullifier looks too short")) ∧
    (16 ≤ (nullifierStr h).data.length →
      (verify_shadowpay h s).1 ≠ .err (.invalidProof "Nullifier looks too short")) := by
  constructor
  · intro hlen
    have hb : rustStrLen (nullifierStr h) < 16 := by
      rw [rustStrLen_nullifierStr]
      exact hlen
    have hsc : structuralCheck h = some (.invalidProof "Nullifier looks too short") := by
      unfold mandatoryFieldMissing at h1
      unfold structuralCheck
      rw [if_neg (ne_true_of_false _ h1),
        if_neg (ne_true_of_false _ (by rw [h2]; exact bne_self_eq_false _)),
        if_neg (ne_true_of_false _ (by rw [h3]; rfl)),
        if_neg (ne_true_of_false _ (by rw [h4]; rfl)),
        if_pos hb]
    rw [verify_of_structural_some h s _ hsc]
  · intro hlen
    have hb : ¬ rustStrLen (nullifierStr h) < 16 := by
      rw [rustStrLen_nullifierStr]
      omega
    have hsc : structuralCheck h = some .escrowLocked ∨ structuralCheck h = none := by
      unfold mandatoryFieldMissing at h1
      unfold structuralCheck
      rw [if_neg (ne_true_of_false _ h1),
        if_neg (ne_true_of_false _ (by rw [h2]; exact bne_self_eq_false _)),
        if_neg (ne_true_of_false _ (by rw [h3]; rfl)),
        if_neg (ne_true_of_false _ (by rw [h4]; rfl)),
        if_neg hb]
      cases he : escrowLockedCheck (escrowAccountStr h) with
      | true => left; rfl
      | false => right; rfl
    rcases hsc with hsc | hsc
    · rw [verify_of_structural_some h s _ hsc]
      simp
    · cases hm : s.contains (nullifierStr h) with
      | true =>
          rw [verify_of_structural_none_mem h s hsc hm]
          simp
      | false =>
          rw [verify_of_structural_none_fresh h s hsc hm]
          simp

/-- Witness for C9: a five-character nullifier is rejected as too short, a
twenty-character one is not. -/
theorem nullifier_length_threshold_witness :
    (verify_shadowpay shortNullHeaders []).2 = [] ∧
    (verify_shadowpay goodHeaders []).1 ≠ .err (.invalidProof "Nullifier looks too short") :=
  ⟨by
    have hres := (nullifier_length_threshold shortNullHeaders [] (by decide) (by decide)
      (by decide) (by decide)).1 (by decide)
    exact verify_err_state shortNullHeaders [] _ hres,
   (nullifier_length_threshold goodHeaders [] (by decide) (by decide) (by decide)
     (by decide)).2 (by decide)⟩


/-- C2 counterexample: after the nullifier of goodHeaders has been accepted, a
second request carrying the same nullifier but an unknown invoice id receives
the 428 precondition response, not the DoubleSpend 409 outcome the claim
prescribes for every subsequent request regardless of other field values. -/
theorem replay_with_other_fields_counterexample :
    (shadowpay_call "/v1/protected" goodHeaders initialReplaySet).1 = .forwarded ∧
    nullifierStr badInvoiceHeaders = nullifierStr goodHeaders ∧
    (shadowpay_call "/v1/protected" badInvoiceHeaders
        (shadowpay_call "/v1/protected" goodHeaders initialReplaySet).2).1 ≠
      .rejected 409 "ShadowPay Nullifier Conflict" "Nullifier already used" ∧
    (shadowpay_call "/v1/protected" badInvoiceHeaders
        (shadowpay_call "/v1/protected" goodHeaders initialReplaySet).2).1 =
      .rejected 428 "ShadowPay Precondition Required" "Unknown or inactive invoice id" := by
  decide

/-- C2 (amended): every nullifier recorded by a run from process start was
presented by some request of the run; on a protected path a structurally valid
credential with a fresh nullifier is forwarded and the nullifier recorded, and
a structurally valid credential whose nullifier is already recorded gets the
409 DoubleSpend response, for the lifetime of the process. -/
theorem first_use_forwarded_then_conflict :
    (∀ reqs n, n ∈ runAll reqs initialReplaySet → ∃ r ∈ reqs, nullifierStr r.2 = n) ∧
    (∀ p h s, is_protected p = true → structurallyValid h = true →
      nullifierStr h ∉ s →
      shadowpay_call p h s = (.forwarded, nullifierStr h :: s)) ∧
    (∀ p h s, is_protected p = true → structurallyValid h = true →
      nullifierStr h ∈ s →
      shadowpay_call p h s =
        (.rejected 409 "ShadowPay Nullifier Conflict" "Nullifier already used", s)) := by
  refine ⟨?_, ?_, ?_⟩
  · intro reqs n hn
    rcases mem_runAll_source n reqs initialReplaySet hn with hmem | hsrc
    · cases hmem
    · exact hsrc
  · intro p h s hp hv hn
    have hk := has_headers_of_structValid h hv
    have hsc : structuralCheck h = none := by
      cases hsc2 : structuralCheck h with
      | none => rfl
      | some e => simp [structurallyValid, hsc2] at hv
    have hc : s.contains (nullifierStr h) = false := by
      cases hcc : s.contains (nullifierStr h) with
      | false => rfl
      | true => exact absurd ((replay_contains_iff s _).mp hcc) hn
    unfold shadowpay_call
    rw [hp, hk, verify_of_structural_none_fresh h s hsc hc]
    rfl
  · intro p h s hp hv hn
    have hk := has_headers_of_structValid h hv
    have hsc : structuralCheck h = none := by
      cases hsc2 : structuralCheck h with
      | none => rfl
      | some e => simp [structurallyValid, hsc2] at hv
    have hc : s.contains (nullifierStr h) = true := (replay_contains_iff s _).mpr hn
    unfold shadowpay_call
    rw [hp, hk, verify_of_structural_none_mem h s hsc hc]
    rfl

/-- Witness for C2 (amended): first use of a concrete credential forwarded,
exact repeat rejected 409. -/
theorem first_use_forwarded_then_conflict_witness :
    (∃ r ∈ [("/v1/protected", goodHeaders)], nullifierStr r.2 = nullifierStr goodHeaders) ∧
    shadowpay_call "/v1/protected" goodHeaders initialReplaySet =
      (.forwarded, nullifierStr goodHeaders :: initialReplaySet) ∧
    shadowpay_call "/v1/protected" goodHeaders [nullifierStr goodHeaders] =
      (.rejected 409 "ShadowPay Nullifier Conflict" "Nullifier already used",
        [nullifierStr goodHeaders]) :=
  ⟨first_use_forwarded_then_conflict.1 [("/v1/protected", goodHeaders)]
     (nullifierStr goodHeaders) (by decide),
   first_use_forwarded_then_conflict.2.1 "/v1/protected" goodHeaders initialReplaySet
     (by decide) (by decide) (by decide),
   first_use_forwarded_then_conflict.2.2 "/v1/protected" goodHeaders
     [nullifierStr goodHeaders] (by decide) (by decide) (by decide)⟩

/-- C5 counterexample: with all four keys present and the proof value a single
space (whitespace only, so empty after trimming), the validator does not return
MissingHeaders; it passes the presence check and fails the base64 check. -/
theorem whitespace_only_field_counterexample :
    has_shadowpay_headers wsProofHeaders = true ∧
    rustIsEmpty (rustTrim (proofStr wsProofHeaders)) = true ∧
    (verify_shadowpay wsProofHeaders initialReplaySet).1 ≠ .err .missingHeaders ∧
    (verify_shadowpay wsProofHeaders initialReplaySet).1 =
      .err (.invalidProof "Proof is not valid base64") := by
  decide

/-- C5 (amended): with all four keys present, the validator returns
MissingHeaders exactly when some mandatory value is the empty string, with no
whitespace trimming; whitespace-only values pass the presence check and are
handled by later checks. -/
theorem missing_headers_iff_empty_field (h : Headers) (s : ReplaySet)
    (hk : has_shadowpay_headers h = true) :
    (verify_shadowpay h s).1 = .err .missingHeaders ↔
      mandatoryFieldMissing h = true := by
  constructor
  · intro hres
    cases hm : mandatoryFieldMissing h with
    | true => rfl
    | false =>
        exfalso
        cases hsc : structuralCheck h with
        | some e =>
            rw [verify_of_structural_some h s e hsc] at hres
            injection hres with he
            exact structuralCheck_not_missing h hm (he ▸ hsc)
        | none =>
            cases hc : s.contains (nullifierStr h) with
            | true =>
                rw [verify_of_structural_none_mem h s hsc hc] at hres
                injection hres with he
                cases he
            | false =>
                rw [verify_of_structural_none_fresh h s hsc hc] at hres
                cases hres
  · intro hm
    rw [verify_missing_of_field h s hm]

/-- Witness for C5 (amended): the iff at a concrete header map whose proof
value is empty. -/
theorem missing_headers_iff_empty_field_witness :
    (verify_shadowpay emptyProofHeaders []).1 = .err .missingHeaders ↔
      mandatoryFieldMissing emptyProofHeaders = true :=
  missing_headers_iff_empty_field emptyProofHeaders [] (by decide)

/-- C6 counterexample: a protected request carrying one of the four mandatory
headers still takes the bare pre-check 434 short-circuit, so the pre-check does
not fire only for completely bare requests. -/
theorem partial_headers_precheck_counterexample :
    onlyProofHeaders.proofH.isSome = true ∧
    shadowpay_call "/v1/protected" onlyProofHeaders initialReplaySet =
      (.rejected 434 "Private Payment Proof Required"
        "ShadowPay proof headers are required on this endpoint.", initialReplaySet) := by
  decide

/-- C6 (amended): on a protected path the middleware short-circuits to the bare
434 pre-check response, leaving the state untouched and never consulting the
validator, exactly when not all four mandatory headers are present; when all
four are present the pre-check response is never produced. -/
theorem precheck_iff_not_all_headers (p : String) (h : Headers) (s : ReplaySet)
    (hp : is_protected p = true) :
    (has_shadowpay_headers h = false →
      shadowpay_call p h s =
        (.rejected 434 "Private Payment Proof Required"
          "ShadowPay proof headers are required on this endpoint.", s)) ∧
    (has_shadowpay_headers h = true →
      (shadowpay_call p h s).1 ≠
        .rejected 434 "Private Payment Proof Required"
          "ShadowPay proof headers are required on this endpoint.") := by
  constructor
  · intro hk
    unfold shadowpay_call
    rw [hp, hk]
    rfl
  · intro hk heq
    rw [call_of_verify p h s hp hk] at heq
    rcases hv : (verify_shadowpay h s).1 with _ | e
    · rw [hv] at heq
      cases heq
    · rw [hv] at heq
      cases e with
      | missingHeaders =>
          injection heq with h1 h2 h3
          exact absurd h3 (by decide)
      | invalidProof msg =>
          injection heq with h1 h2 h3
          exact absurd h1 (by decide)
      | doubleSpend msg =>
          injection heq with h1 h2 h3
          exact absurd h1 (by decide)
      | escrowLocked =>
          injection heq with h1 h2 h3
          exact absurd h1 (by decide)
      | preconditionMissing msg =>
          injection heq with h1 h2 h3
          exact absurd h1 (by decide)

/-- Witness for C6 (amended): one bare request taking the pre-check and one
fully-headed request that cannot produce the pre-check response. -/
theorem precheck_iff_not_all_headers_witness :
    shadowpay_call "/v1/protected" bareHeaders ["nullifier_cccc_dddd"] =
      (.rejected 434 "Private Payment Proof Required"
        "ShadowPay proof headers are required on this endpoint.",
        ["nullifier_cccc_dddd"]) ∧
    (shadowpay_call "/v1/protected" goodHeaders []).1 ≠
      .rejected 434 "Private Payment Proof Required"
        "ShadowPay proof headers are required on this endpoint." :=
  ⟨(precheck_iff_not_all_headers "/v1/protected" bareHeaders ["nullifier_cccc_dddd"]
     (by decide)).1 (by decide),
   (precheck_iff_not_all_headers "/v1/protected" goodHeaders [] (by decide)).2
     (by decide)⟩

end ShadowPay
